import Mathlib

/-!
Shallow embedding of the update-wsl2-kernel tool (Go sources: main.go,
sha1sum.go, github.go, wslconfig.go).

The local filesystem is modelled as a total map from path strings to file
states, the network as explicit fetch functions passed in as parameters,
and the content digest as a pluggable function parameter: the spec treats
the fingerprint primitive as out of scope ("any collision-resistant digest
suffices"), so theorems that need collision resistance take injectivity of
the digest as a hypothesis.
-/

namespace UpdateWsl2Kernel

/-- Observable state of one path in the local filesystem: the path may be
absent, present but failing at open time (permissions), present but failing
while being streamed (I/O error mid-read, with the bytes involved), or a
readable regular file with the given byte content. -/
inductive FileState where
  | absent
  | openFail
  | readFail (content : List Nat)
  | file (content : List Nat)
deriving DecidableEq, Repr

/-- The local filesystem: a total map from path strings to file states. -/
abbrev FS : Type := String → FileState

/-- Point update of the filesystem at one path. -/
def fsUpdate (fs : FS) (p : String) (st : FileState) : FS :=
  fun q => if q = p then st else fs q

/-- Sentinel digest value: sha1.New().Sum(nil) in the Go sources
(sha1sum.go line 11), i.e. the digest of the empty byte sequence. -/
def emptySHA1 (digest : List Nat → α) : α := digest []

/-- Translation of sha1sum (sha1sum.go lines 15-32).  Go returns the pair
(value, error); the error is modelled as an Option String carrying the
message prefix.  On every failure path — stat failure, open failure, and
checksum (read) failure — the Go code returns emptySHA1 together with a
non-nil error; on success it returns the digest of the streamed file
content with a nil error. -/
def sha1sum (digest : List Nat → α) (fs : FS) (fn : String) : α × Option String :=
  match fs fn with
  | .absent => (emptySHA1 digest, some ("failed to stat " ++ fn))
  | .openFail => (emptySHA1 digest, some ("failed to open " ++ fn))
  | .readFail _ => (emptySHA1 digest, some ("failed to checksum " ++ fn))
  | .file c => (digest c, none)

/-! Lexical path handling, modelling the Go standard library path package
(an external collaborator of the tool): Clean resolves ".", ".." and
repeated separators, Join concatenates with "/" and cleans. -/

/-- Split a character list into its "/"-separated components. -/
def splitComponents : List Char → List Char → List String
  | [], acc => [String.mk acc.reverse]
  | '/' :: rest, acc => String.mk acc.reverse :: splitComponents rest []
  | c :: rest, acc => splitComponents rest (c :: acc)

/-- Process path components against a (reversed) stack, resolving "." and
"..": ".." pops a popable entry, is dropped at the root of a rooted path,
and accumulates at the front of a relative path. -/
def cleanStack (rooted : Bool) : List String → List String → List String
  | [], stack => stack
  | comp :: rest, stack =>
    if comp = "" ∨ comp = "." then cleanStack rooted rest stack
    else if comp = ".." then
      match stack with
      | top :: stack2 =>
        if top = ".." then cleanStack rooted rest (".." :: top :: stack2)
        else cleanStack rooted rest stack2
      | [] =>
        if rooted then cleanStack rooted rest []
        else cleanStack rooted rest [".."]
    else cleanStack rooted rest (comp :: stack)

/-- Join cleaned components back with "/". -/
def joinComponents : List String → String
  | [] => ""
  | [comp] => comp
  | comp :: rest => comp ++ "/" ++ joinComponents rest

/-- Model of Go path.Clean: shortest lexical equivalent of the path,
"." for an empty result, a leading "/" preserved for rooted paths. -/
def pathClean (p : String) : String :=
  if p = "" then "."
  else
    let rooted := p.toList.head? = some '/'
    let comps := splitComponents p.toList []
    let out := joinComponents (cleanStack rooted comps []).reverse
    if rooted then "/" ++ out
    else if out = "" then "." else out

/-- Model of Go path.Join for two elements: empty elements are skipped,
the rest are joined with "/" and the result is cleaned.  Join of two empty
strings is the empty string (Go returns "" without cleaning). -/
def pathJoin (a b : String) : String :=
  if a = "" ∧ b = "" then ""
  else if a = "" then pathClean b
  else if b = "" then pathClean a
  else pathClean (a ++ "/" ++ b)

/-! Release metadata, translated from the GithubRelease type in main.go
(draft sections) and github.go.  Timestamps are modelled as Nat values. -/

/-- One downloadable asset of a release (the anonymous struct in the
Assets field of GithubRelease). -/
structure ReleaseAsset where
  url : String
  name : String
  label : String
  browserDownloadURL : String
deriving DecidableEq, Repr

/-- Abbreviated Github release object, matching the fields the tool
decodes from the release JSON. -/
structure GithubRelease where
  name : String
  tagName : String
  draft : Bool
  prerelease : Bool
  createdAt : Nat
  publishedAt : Nat
  assets : List ReleaseAsset
  body : String
deriving DecidableEq, Repr

/-- Constant target asset name (github.go / main.go drafts): the asset
scan matches names against this constant. -/
def kernelImageName : String := "bzImage"

/-- Base URL of the repository metadata endpoint, as written literally in
the release URL construction in main.go line 212 and used via
ghReposEndpoint in github.go line 93; the repository string is appended to
it by plain concatenation. -/
def ghReposEndpoint : String := "https://api.github.com/repos/"

/-- Outcome of fetching asset bytes over the network: the transport call
may fail before any byte arrives, succeed fully, or break mid-stream after
some bytes were already written by io.Copy. -/
inductive FetchResult where
  | netFail
  | interrupted (bytes : List Nat)
  | ok (bytes : List Nat)
deriving DecidableEq, Repr

/-- Translation of downloadKernelImage (github.go lines 54-69): fetch the
asset URL; on transport failure return before os.Create touches the
filesystem; otherwise os.Create truncates localPath and io.Copy writes the
received bytes, returning an error when the stream broke mid-copy.  The
second component reports the error, the third lists the URLs requested. -/
def downloadKernelImage (fetchAsset : String → FetchResult) (fs : FS)
    (assetURL localPath : String) : FS × Option String × List String :=
  match fetchAsset assetURL with
  | .netFail => (fs, some ("failed to download " ++ assetURL), [assetURL])
  | .interrupted bytes =>
      (fsUpdate fs localPath (.file bytes),
       some ("failed to save " ++ assetURL ++ " to " ++ localPath), [assetURL])
  | .ok bytes => (fsUpdate fs localPath (.file bytes), none, [assetURL])

/-- Result of downloadReleasedImage: the Go triple (path, digest, error)
plus the filesystem after the call and the list of URLs requested. -/
structure DLResult (α : Type) where
  path : String
  digestVal : α
  err : Option String
  fs : FS
  calls : List String

/-- Translation of downloadReleasedImage (github.go lines 17-51): fetch
and decode the release metadata at link, scan the assets for the first one
whose Name equals kernelImageName, download it to the (optionally tagged,
cleaned) temporary path and return the sha1sum of the downloaded file.
net models client.Get plus the JSON decode: none is a transport failure,
some none a decode failure, some (some r) the decoded release.  Note: the
Go code drops the error of downloadKernelImage (the err binding at line 45
is shadowed at line 46 before being checked), so the sha1sum of whatever
landed at the temporary path is returned even after a failed download;
the model mirrors this. -/
def downloadReleasedImage (digest : List Nat → α)
    (net : String → Option (Option GithubRelease))
    (fetchAsset : String → FetchResult) (fs : FS)
    (tmpDir : String) (autoTag : Bool) (link : String) : DLResult α :=
  let downloadedKernel := pathJoin tmpDir kernelImageName
  match net link with
  | none =>
      ⟨"", emptySHA1 digest, some ("failed to retrieve release " ++ link), fs, [link]⟩
  | some none =>
      ⟨"", emptySHA1 digest, some ("failed to parse release " ++ link), fs, [link]⟩
  | some (some release) =>
    match release.assets.find? (fun a => a.name = kernelImageName) with
    | some asset =>
        let dk := if autoTag then downloadedKernel ++ "." ++ release.tagName
                  else downloadedKernel
        let dk := pathClean dk
        let (fs2, _derr, urls) := downloadKernelImage fetchAsset fs asset.browserDownloadURL dk
        let (dg, serr) := sha1sum digest fs2 dk
        ⟨dk, dg, serr, fs2, link :: urls⟩
    | none =>
        ⟨"", emptySHA1 digest,
         some ("unable to find asset " ++ kernelImageName ++ " in " ++ link), fs, [link]⟩

/-- Result of the release listing: the error outcome and the URLs
requested over the network. -/
structure ListResult where
  err : Option String
  calls : List String
deriving DecidableEq, Repr

/-- Translation of listRecentReleases (github.go lines 92-114): build the
listing URL by concatenating the endpoint, the repository string and
"/releases", perform the request, decode, and log each release.  No
validation of the repository string happens at any point; the request is
issued whatever its form. -/
def listRecentReleases (net : String → Option (Option (List GithubRelease)))
    (repo : String) : ListResult :=
  let releases := ghReposEndpoint ++ repo ++ "/releases"
  match net releases with
  | none => ⟨some ("failed to retrieve " ++ releases), [releases]⟩
  | some none => ⟨some ("failed to parse " ++ releases), [releases]⟩
  | some (some _) => ⟨none, [releases]⟩

/-! Model of the WSL configuration store (wslconfig.go).  The backing
.wslconfig file is either absent or present with the key-value pairs of
its wsl2 section. -/

/-- Configuration store state: none models an absent .wslconfig file,
some kvs a file whose wsl2 section holds the pairs kvs. -/
abbrev WslCfg : Type := Option (List (String × String))

/-- Error outcomes of the config store operations. -/
inductive CfgErr where
  | notExist
  | saveFail
deriving DecidableEq, Repr

/-- Key of the kernel entry in the wsl2 section (wslconfig.go line 14). -/
def wsl2KernelKey : String := "kernel"

/-- Set or insert a key in a key-value list, leaving other keys in place
(ini Key(...).SetValue semantics). -/
def setKV (kvs : List (String × String)) (k v : String) : List (String × String) :=
  match kvs with
  | [] => [(k, v)]
  | (k2, v2) :: rest => if k2 = k then (k, v) :: rest else (k2, v2) :: setKV rest k v

/-- Translation of wslConfigGetKernelPath (wslconfig.go lines 18-24): load
the config (absent file yields an IsNotExist error) and read the kernel
key, the empty string when the key is undefined. -/
def wslConfigGetKernelPath (cfg : WslCfg) : String × Option CfgErr :=
  match cfg with
  | none => ("", some .notExist)
  | some kvs => (((kvs.lookup wsl2KernelKey).getD ""), none)

/-- Translation of wslConfigSetKernel (wslconfig.go lines 27-43): load the
config, starting from an empty one when the file does not exist, set the
wsl2 kernel key and save.  saveOK models whether cfg.SaveTo succeeds; on a
save failure the error is returned and the model keeps the prior store
state. -/
def wslConfigSetKernel (cfg : WslCfg) (saveOK : Bool) (kernel : String) :
    WslCfg × Option CfgErr :=
  let base := match cfg with | none => [] | some kvs => kvs
  if saveOK then (some (setKV base wsl2KernelKey kernel), none)
  else (cfg, some .saveFail)

/-! The synchronization flow of main (main.go lines 22-123).  The listing
mode, flag parsing and download-directory defaulting (lines 25-56) are
outside the flow the claims quantify over; the resolved values enter the
model as arguments.  getReleaseAsset, called by downloadCopyOfReleasedImage,
is not part of the sources under src, so the model takes the bytes of a
successfully downloaded asset and its release tag as inputs: the temporary
write and digest of downloadCopyOfReleasedImage (lines 103-123) are what
the model performs. -/

/-- Inputs of one run of main, after flag parsing and directory
resolution. -/
structure SyncArgs where
  downloads : String
  imageName : String
  tagImage : Bool
  autoInstall : Bool
  tmpDir : String
  remoteTag : String
  remoteBytes : List Nat
  sameFilesystem : Bool
  saveOK : Bool
deriving Repr

/-- Terminal outcome of a run of main: either a normal termination report
or the exit(err) path taken, named after the step that failed. -/
inductive SyncReport where
  | fatalLocalDigest
  | noOpIdentical
  | adopted
  | renameFailed
  | configPersistFailed
  | adoptedAndConfigured
deriving DecidableEq, Repr

/-- Final state of one run of main: the filesystem, the config store and
the terminal report. -/
structure SyncResult where
  fs : FS
  cfg : WslCfg
  report : SyncReport

/-- Temporary download path used by downloadCopyOfReleasedImage
(main.go line 104): path.Join(os.TempDir(), imageName). -/
def tmpImagePath (a : SyncArgs) : String := pathJoin a.tmpDir a.imageName

/-- Final destination path (main.go lines 75-79): path.Join of the
download directory and the image name, suffixed with "." and the release
tag when the tag-image flag is set, then path.Clean. -/
def destinationPath (a : SyncArgs) : String :=
  let destination := pathJoin a.downloads a.imageName
  pathClean (if a.tagImage then destination ++ "." ++ a.remoteTag else destination)

/-- Local digest computed by main.go lines 58-65: the sentinel emptySHA1
when no kernel path is configured, the sha1sum of the configured path
otherwise (its error handled separately in syncRun). -/
def localSHAOf (digest : List Nat → α) (cfg : WslCfg) (fs : FS) : α :=
  let localPath := (wslConfigGetKernelPath cfg).1
  if localPath = "" then emptySHA1 digest else (sha1sum digest fs localPath).1

/-- Translation of the synchronization flow of main (main.go lines 34-95).
Step order mirrors the source: read the configured kernel path; digest it
when set, exiting on a digest error; write the downloaded asset bytes to
the temporary path and digest them (downloadCopyOfReleasedImage); when the
digests differ, os.Rename the temporary file onto the destination —
atomic on one filesystem, failing with no effect otherwise — and, when the
install flag is set, persist the destination into the config store,
exiting on a persist error without undoing the rename. -/
def syncRun [DecidableEq α] (digest : List Nat → α) (a : SyncArgs)
    (cfg0 : WslCfg) (fs0 : FS) : SyncResult :=
  let localPath := (wslConfigGetKernelPath cfg0).1
  if localPath ≠ "" ∧ ((sha1sum digest fs0 localPath).2).isSome then
    ⟨fs0, cfg0, .fatalLocalDigest⟩
  else
    let localSHA := localSHAOf digest cfg0 fs0
    let tmp := tmpImagePath a
    let fs1 := fsUpdate fs0 tmp (.file a.remoteBytes)
    let remoteSHA := (sha1sum digest fs1 tmp).1
    if remoteSHA ≠ localSHA then
      let dest := destinationPath a
      if a.sameFilesystem then
        let fs2 := fsUpdate (fsUpdate fs1 tmp .absent) dest (.file a.remoteBytes)
        if a.autoInstall then
          match wslConfigSetKernel cfg0 a.saveOK dest with
          | (cfg1, none) => ⟨fs2, cfg1, .adoptedAndConfigured⟩
          | (cfg1, some _) => ⟨fs2, cfg1, .configPersistFailed⟩
        else ⟨fs2, cfg0, .adopted⟩
      else ⟨fs1, cfg0, .renameFailed⟩
    else ⟨fs1, cfg0, .noOpIdentical⟩

/-- Sequence of filesystem states a reader could observe during one run of
main, in program order: the initial state, the state after the temporary
write, and — when the digests differ and the rename happens — the state
after the atomic rename.  A crash at any point leaves the filesystem at
one of these states. -/
def syncTrace [DecidableEq α] (digest : List Nat → α) (a : SyncArgs)
    (cfg0 : WslCfg) (fs0 : FS) : List FS :=
  let localPath := (wslConfigGetKernelPath cfg0).1
  if localPath ≠ "" ∧ ((sha1sum digest fs0 localPath).2).isSome then
    [fs0]
  else
    let localSHA := localSHAOf digest cfg0 fs0
    let tmp := tmpImagePath a
    let fs1 := fsUpdate fs0 tmp (.file a.remoteBytes)
    let remoteSHA := (sha1sum digest fs1 tmp).1
    if remoteSHA ≠ localSHA then
      if a.sameFilesystem then
        [fs0, fs1, fsUpdate (fsUpdate fs1 tmp .absent) (destinationPath a) (.file a.remoteBytes)]
      else [fs0, fs1]
    else [fs0, fs1]

/-- Concrete digest instance used by witnesses and counterexamples: the
identity on byte lists, a trivially collision-free stand-in for the
pluggable digest. -/
def idDigest : List Nat → List Nat := fun l => l

/-- Sample config store used by witnesses: a .wslconfig whose wsl2 section
configures the kernel at "/k/img". -/
def sampleCfg : WslCfg := some [("kernel", "/k/img")]

/-- Sample filesystem used by witnesses: the configured kernel holds the
bytes 1, 2 and every other path is absent. -/
def sampleFS : FS := fun q => if q = "/k/img" then FileState.file [1, 2] else FileState.absent

/-- Sample run arguments whose remote bytes equal the local content (a
no-op run). -/
def sampleArgsNoop : SyncArgs :=
  ⟨"/d", "bzImage", true, false, "/tmp", "v1", [1, 2], true, true⟩

/-- Sample run arguments whose remote bytes differ from the local content
(an adopting run, no auto-install). -/
def sampleArgsAdopt : SyncArgs :=
  ⟨"/d", "bzImage", true, false, "/tmp", "v1", [3], true, true⟩

/-- Sample run arguments for an adopting run with auto-install enabled
and a failing config save. -/
def sampleArgsPersist : SyncArgs :=
  ⟨"/d", "bzImage", true, true, "/tmp", "v1", [3], true, false⟩

/-- Sample run arguments for an adopting run whose temporary path and
destination sit on different filesystems, so os.Rename cannot move the
file atomically. -/
def sampleArgsCross : SyncArgs :=
  ⟨"/d", "bzImage", false, false, "/tmp", "v1", [1], false, true⟩

/-! Basic lemmas about the filesystem and digest model. -/

/-- Digesting a path right after writing a file there yields the digest of
the written bytes with no error. -/
theorem sha1sum_write_self (digest : List Nat → α) (fs : FS) (p : String) (c : List Nat) :
    sha1sum digest (fsUpdate fs p (.file c)) p = (digest c, none) := by
  simp [sha1sum, fsUpdate]

/-- A point update leaves every other path unchanged. -/
theorem fsUpdate_ne (fs : FS) (p : String) (st : FileState) (q : String) (h : q ≠ p) :
    fsUpdate fs p st q = fs q := by
  simp [fsUpdate, h]

/-- Claim C4, counterexample: sha1sum on a path that does not exist
returns the sentinel together with a non-nil stat error (sha1sum.go
lines 16-18), contradicting the claim that a missing path yields the
sentinel without an error. -/
theorem sha1sum_missing_returns_error :
    (sha1sum idDigest (fun _ => FileState.absent) "p").1 = emptySHA1 idDigest
    ∧ (sha1sum idDigest (fun _ => FileState.absent) "p").2 = some "failed to stat p" := by
  exact ⟨rfl, rfl⟩

/-- Claim C4, amended: sha1sum returns no error exactly when the path is
an existing readable file; in every failure case — including a path that
does not exist — it returns the sentinel digest paired with a non-nil
error, so a configured-but-missing local image makes the run fail. -/
theorem sha1sum_error_iff_not_file (digest : List Nat → α) (fs : FS) (p : String) :
    ((sha1sum digest fs p).2 = none ↔ ∃ c, fs p = FileState.file c)
    ∧ (fs p = FileState.absent →
        sha1sum digest fs p = (emptySHA1 digest, some ("failed to stat " ++ p))) := by
  constructor
  · constructor
    · intro h
      cases hf : fs p with
      | absent => simp [sha1sum, hf] at h
      | openFail => simp [sha1sum, hf] at h
      | readFail c => simp [sha1sum, hf] at h
      | file c => exact ⟨c, rfl⟩
    · rintro ⟨c, hc⟩
      simp [sha1sum, hc]
  · intro h
    simp [sha1sum, h]

/-- Claim C4, witness: the amended statement instantiated at the identity
digest and an everywhere-absent filesystem. -/
theorem sha1sum_error_iff_not_file_witness :
    ((sha1sum idDigest (fun _ => FileState.absent) "p").2 = none
        ↔ ∃ c, (fun _ => FileState.absent : FS) "p" = FileState.file c)
    ∧ ((fun _ => FileState.absent : FS) "p" = FileState.absent →
        sha1sum idDigest (fun _ => FileState.absent) "p"
          = (emptySHA1 idDigest, some ("failed to stat " ++ "p"))) :=
  sha1sum_error_iff_not_file idDigest (fun _ => FileState.absent) "p"

/-- Claim C3, counterexample: an existing zero-byte file is digested
without error and its fingerprint is exactly the sentinel emptySHA1 (the
digest of the empty byte sequence), contradicting the claim that the
fingerprint of an existing zero-byte file never compares equal to the
sentinel used for a non-existent file. -/
theorem zeroByte_digest_equals_sentinel :
    (sha1sum idDigest (fun _ => FileState.file []) "p").1 = emptySHA1 idDigest
    ∧ (sha1sum idDigest (fun _ => FileState.file []) "p").2 = none := by
  exact ⟨rfl, rfl⟩

/-- Claim C3, amended: the sentinel equals itself deterministically and,
for an injective (collision-free) digest, differs from the fingerprint of
every file with non-empty content; the fingerprint of an existing
zero-byte file however equals the sentinel. -/
theorem sentinel_distinct_from_nonempty (digest : List Nat → α)
    (hinj : Function.Injective digest) (fs : FS) (p : String) (c : List Nat)
    (hp : fs p = FileState.file c) (hc : c ≠ []) :
    (sha1sum digest fs p).1 ≠ emptySHA1 digest
    ∧ emptySHA1 digest = emptySHA1 digest
    ∧ (∀ q, fs q = FileState.file [] → (sha1sum digest fs q).1 = emptySHA1 digest) := by
  refine ⟨?_, rfl, ?_⟩
  · simp only [sha1sum, hp, emptySHA1]
    intro h
    exact hc (hinj h)
  · intro q hq
    simp [sha1sum, hq, emptySHA1]

/-- Claim C3, witness: the amended statement at the identity digest and a
filesystem holding a one-byte file at "a" and zero-byte files elsewhere. -/
theorem sentinel_distinct_from_nonempty_witness :
    (sha1sum idDigest (fun q => if q = "a" then FileState.file [1] else FileState.file []) "a").1
        ≠ emptySHA1 idDigest
    ∧ emptySHA1 idDigest = emptySHA1 idDigest
    ∧ (∀ q, (fun q => if q = "a" then FileState.file [1] else FileState.file []) q
          = FileState.file []
        → (sha1sum idDigest
            (fun q => if q = "a" then FileState.file [1] else FileState.file []) q).1
          = emptySHA1 idDigest) :=
  sentinel_distinct_from_nonempty idDigest (fun _ _ h => h)
    (fun q => if q = "a" then FileState.file [1] else FileState.file [])
    "a" [1] (by decide) (by decide)

/-- Claim C9: sha1sum is deterministic and — for an injective
(collision-free) digest, as the spec assumes of its pluggable fingerprint
primitive — two readable files have equal fingerprints exactly when their
byte contents are equal, whatever their paths or surrounding filesystems. -/
theorem sha1sum_deterministic_content_iff (digest : List Nat → α)
    (hinj : Function.Injective digest) (fsa fsb : FS) (pa pb : String)
    (ca cb : List Nat) (ha : fsa pa = FileState.file ca) (hb : fsb pb = FileState.file cb) :
    sha1sum digest fsa pa = sha1sum digest fsa pa
    ∧ ((sha1sum digest fsa pa).1 = (sha1sum digest fsb pb).1 ↔ ca = cb) := by
  refine ⟨rfl, ?_⟩
  simp only [sha1sum, ha, hb]
  exact hinj.eq_iff

/-- Claim C9, witness: identical two-byte content stored at different
paths of different filesystems fingerprints identically. -/
theorem sha1sum_deterministic_content_iff_witness :
    sha1sum idDigest (fun _ => FileState.file [1, 2]) "a"
        = sha1sum idDigest (fun _ => FileState.file [1, 2]) "a"
    ∧ ((sha1sum idDigest (fun _ => FileState.file [1, 2]) "a").1
        = (sha1sum idDigest
            (fun q => if q = "b" then FileState.file [1, 2] else FileState.absent) "b").1
      ↔ ([1, 2] : List Nat) = [1, 2]) :=
  sha1sum_deterministic_content_iff idDigest (fun _ _ h => h)
    (fun _ => FileState.file [1, 2])
    (fun q => if q = "b" then FileState.file [1, 2] else FileState.absent)
    "a" "b" [1, 2] [1, 2] (by decide) (by decide)

/-- Claim C5: when the decoded release carries no asset whose name equals
the target asset name, downloadReleasedImage reports the asset-not-found
error, leaves the filesystem untouched (no partial file anywhere, in
particular not at any destination), and requests nothing over the network
beyond the single metadata call. -/
theorem resolver_assetNotFound (digest : List Nat → α)
    (net : String → Option (Option GithubRelease)) (fetchAsset : String → FetchResult)
    (fs : FS) (tmpDir link : String) (autoTag : Bool) (release : GithubRelease)
    (hnet : net link = some (some release))
    (hmiss : ∀ asset ∈ release.assets, asset.name ≠ kernelImageName) :
    (downloadReleasedImage digest net fetchAsset fs tmpDir autoTag link).err
      = some ("unable to find asset " ++ kernelImageName ++ " in " ++ link)
    ∧ (downloadReleasedImage digest net fetchAsset fs tmpDir autoTag link).fs = fs
    ∧ (downloadReleasedImage digest net fetchAsset fs tmpDir autoTag link).calls = [link] := by
  have hfind : release.assets.find? (fun a => a.name = kernelImageName) = none := by
    simp only [List.find?_eq_none, decide_eq_true_eq]
    exact hmiss
  simp [downloadReleasedImage, hnet, hfind]

/-- Claim C5, witness: a release whose only asset is named "target.bin"
resolved against the constant target "bzImage". -/
theorem resolver_assetNotFound_witness :
    (downloadReleasedImage idDigest
        (fun _ => some (some ⟨"r", "v1", false, false, 0, 0,
          [⟨"u", "target.bin", "", "d"⟩], ""⟩)) (fun _ => FetchResult.netFail)
        (fun _ => FileState.absent) "/tmp" true "L").err
      = some ("unable to find asset " ++ kernelImageName ++ " in " ++ "L")
    ∧ (downloadReleasedImage idDigest
        (fun _ => some (some ⟨"r", "v1", false, false, 0, 0,
          [⟨"u", "target.bin", "", "d"⟩], ""⟩)) (fun _ => FetchResult.netFail)
        (fun _ => FileState.absent) "/tmp" true "L").fs = (fun _ => FileState.absent)
    ∧ (downloadReleasedImage idDigest
        (fun _ => some (some ⟨"r", "v1", false, false, 0, 0,
          [⟨"u", "target.bin", "", "d"⟩], ""⟩)) (fun _ => FetchResult.netFail)
        (fun _ => FileState.absent) "/tmp" true "L").calls = ["L"] :=
  resolver_assetNotFound idDigest
    (fun _ => some (some ⟨"r", "v1", false, false, 0, 0,
      [⟨"u", "target.bin", "", "d"⟩], ""⟩)) (fun _ => FetchResult.netFail)
    (fun _ => FileState.absent) "/tmp" "L" true
    ⟨"r", "v1", false, false, 0, 0, [⟨"u", "target.bin", "", "d"⟩], ""⟩
    rfl (by decide)

/-- Claim C7, counterexample: for the malformed repository identifier
"noslash" (not of the owner-slash-name form) the listing still issues a
network request — built by concatenating the identifier into the endpoint
URL — instead of failing with an InvalidRepository error before any
network call; no validation exists in the code. -/
theorem listReleases_malformed_repo_calls_network :
    (listRecentReleases (fun _ => none) "noslash").calls
      = [ghReposEndpoint ++ "noslash" ++ "/releases"]
    ∧ (listRecentReleases (fun _ => none) "noslash").calls ≠ [] := by
  exact ⟨rfl, by decide⟩

/-- Claim C7, amended: repository identifiers are never validated; for
every repository string, well-formed or not, exactly one metadata request
is issued, to the URL formed by concatenating the endpoint, the identifier
and "/releases". -/
theorem listReleases_always_one_network_call
    (net : String → Option (Option (List GithubRelease))) (repo : String) :
    (listRecentReleases net repo).calls = [ghReposEndpoint ++ repo ++ "/releases"] := by
  rcases h : net (ghReposEndpoint ++ repo ++ "/releases") with _ | (_ | _) <;>
    simp [listRecentReleases, h]

/-- Digesting a path depends on the filesystem only through the state of
that path. -/
theorem sha1sum_congr (digest : List Nat → α) (fsa fsb : FS) (fn : String)
    (h : fsa fn = fsb fn) : sha1sum digest fsa fn = sha1sum digest fsb fn := by
  simp [sha1sum, h]

/-- A run that reaches the comparison step does not satisfy the fatal
guard of the local-digest step. -/
theorem syncRun_guard_false (digest : List Nat → α) (cfg0 : WslCfg) (fs0 : FS)
    (hReach : (wslConfigGetKernelPath cfg0).1 = ""
      ∨ (sha1sum digest fs0 (wslConfigGetKernelPath cfg0).1).2 = none) :
    ¬((wslConfigGetKernelPath cfg0).1 ≠ ""
      ∧ ((sha1sum digest fs0 (wslConfigGetKernelPath cfg0).1).2).isSome = true) := by
  rcases hReach with h | h <;> simp [h]

/-- Characterization of a run whose remote digest equals the local one:
the run ends in the no-op report and the only filesystem effect is the
temporary download. -/
theorem syncRun_noop_eq [DecidableEq α] (digest : List Nat → α) (a : SyncArgs)
    (cfg0 : WslCfg) (fs0 : FS)
    (hReach : (wslConfigGetKernelPath cfg0).1 = ""
      ∨ (sha1sum digest fs0 (wslConfigGetKernelPath cfg0).1).2 = none)
    (hEq : digest a.remoteBytes = localSHAOf digest cfg0 fs0) :
    syncRun digest a cfg0 fs0
      = ⟨fsUpdate fs0 (tmpImagePath a) (FileState.file a.remoteBytes), cfg0,
         SyncReport.noOpIdentical⟩ := by
  have hr : (sha1sum digest (fsUpdate fs0 (tmpImagePath a) (FileState.file a.remoteBytes))
      (tmpImagePath a)).1 = localSHAOf digest cfg0 fs0 := by
    rw [sha1sum_write_self]
    exact hEq
  simp only [syncRun]
  rw [if_neg (syncRun_guard_false digest cfg0 fs0 hReach), if_neg (fun h => h hr)]

/-- In a run whose remote digest differs from the local one and whose
rename stays on one filesystem, the resulting filesystem is the initial
one with the temporary file written, removed again by the rename, and the
downloaded bytes placed at the destination — whatever the install flag
and the config save outcome. -/
theorem syncRun_adopt_fs [DecidableEq α] (digest : List Nat → α) (a : SyncArgs)
    (cfg0 : WslCfg) (fs0 : FS)
    (hReach : (wslConfigGetKernelPath cfg0).1 = ""
      ∨ (sha1sum digest fs0 (wslConfigGetKernelPath cfg0).1).2 = none)
    (hNe : digest a.remoteBytes ≠ localSHAOf digest cfg0 fs0)
    (hFS : a.sameFilesystem = true) :
    (syncRun digest a cfg0 fs0).fs
      = fsUpdate (fsUpdate
          (fsUpdate fs0 (tmpImagePath a) (FileState.file a.remoteBytes))
          (tmpImagePath a) FileState.absent)
          (destinationPath a) (FileState.file a.remoteBytes) := by
  have hr : (sha1sum digest (fsUpdate fs0 (tmpImagePath a) (FileState.file a.remoteBytes))
      (tmpImagePath a)).1 ≠ localSHAOf digest cfg0 fs0 := by
    rw [sha1sum_write_self]
    exact hNe
  simp only [syncRun]
  rw [if_neg (syncRun_guard_false digest cfg0 fs0 hReach), if_pos hr, if_pos hFS]
  cases haI : a.autoInstall with
  | false => simp
  | true =>
    rcases hset : wslConfigSetKernel cfg0 a.saveOK (destinationPath a) with ⟨cfg1, e⟩
    cases e <;> simp [hset]

/-- In an adopting run with auto-install enabled and a failing config
save, the terminal report is the persist failure. -/
theorem syncRun_adopt_report_persistFail [DecidableEq α] (digest : List Nat → α)
    (a : SyncArgs) (cfg0 : WslCfg) (fs0 : FS)
    (hReach : (wslConfigGetKernelPath cfg0).1 = ""
      ∨ (sha1sum digest fs0 (wslConfigGetKernelPath cfg0).1).2 = none)
    (hNe : digest a.remoteBytes ≠ localSHAOf digest cfg0 fs0)
    (hFS : a.sameFilesystem = true)
    (hAI : a.autoInstall = true) (hSave : a.saveOK = false) :
    (syncRun digest a cfg0 fs0).report = SyncReport.configPersistFailed := by
  have hr : (sha1sum digest (fsUpdate fs0 (tmpImagePath a) (FileState.file a.remoteBytes))
      (tmpImagePath a)).1 ≠ localSHAOf digest cfg0 fs0 := by
    rw [sha1sum_write_self]
    exact hNe
  have hset : wslConfigSetKernel cfg0 a.saveOK (destinationPath a)
      = (cfg0, some CfgErr.saveFail) := by
    rw [hSave]
    rfl
  simp only [syncRun]
  rw [if_neg (syncRun_guard_false digest cfg0 fs0 hReach), if_pos hr, if_pos hFS]
  simp [hAI, hset]

/-- Claim C1: when the digest of the freshly downloaded bytes equals the
local digest, the run reports NoOpIdentical; apart from the temporary
download path nothing on the filesystem changes — in particular the
destination path is neither renamed onto nor written, and the content and
fingerprint of the configured local image are identical before and after
the run. -/
theorem sync_noOpIdentical_frame [DecidableEq α] (digest : List Nat → α) (a : SyncArgs)
    (cfg0 : WslCfg) (fs0 : FS)
    (hReach : (wslConfigGetKernelPath cfg0).1 = ""
      ∨ (sha1sum digest fs0 (wslConfigGetKernelPath cfg0).1).2 = none)
    (hEq : digest a.remoteBytes = localSHAOf digest cfg0 fs0) :
    (syncRun digest a cfg0 fs0).report = SyncReport.noOpIdentical
    ∧ (∀ p, p ≠ tmpImagePath a → (syncRun digest a cfg0 fs0).fs p = fs0 p)
    ∧ (destinationPath a ≠ tmpImagePath a →
        (syncRun digest a cfg0 fs0).fs (destinationPath a) = fs0 (destinationPath a))
    ∧ ((wslConfigGetKernelPath cfg0).1 ≠ tmpImagePath a →
        sha1sum digest (syncRun digest a cfg0 fs0).fs ((wslConfigGetKernelPath cfg0).1)
          = sha1sum digest fs0 ((wslConfigGetKernelPath cfg0).1)) := by
  rw [syncRun_noop_eq digest a cfg0 fs0 hReach hEq]
  refine ⟨rfl, ?_, ?_, ?_⟩
  · intro p hp
    exact fsUpdate_ne _ _ _ _ hp
  · intro hd
    exact fsUpdate_ne _ _ _ _ hd
  · intro hl
    exact sha1sum_congr _ _ _ _ (fsUpdate_ne _ _ _ _ hl)

/-- Claim C1, witness: a run against the sample store whose remote bytes
equal the configured local image content. -/
theorem sync_noOpIdentical_frame_witness :
    (syncRun idDigest sampleArgsNoop sampleCfg sampleFS).report = SyncReport.noOpIdentical
    ∧ (∀ p, p ≠ tmpImagePath sampleArgsNoop →
        (syncRun idDigest sampleArgsNoop sampleCfg sampleFS).fs p = sampleFS p)
    ∧ (destinationPath sampleArgsNoop ≠ tmpImagePath sampleArgsNoop →
        (syncRun idDigest sampleArgsNoop sampleCfg sampleFS).fs (destinationPath sampleArgsNoop)
          = sampleFS (destinationPath sampleArgsNoop))
    ∧ ((wslConfigGetKernelPath sampleCfg).1 ≠ tmpImagePath sampleArgsNoop →
        sha1sum idDigest (syncRun idDigest sampleArgsNoop sampleCfg sampleFS).fs
            ((wslConfigGetKernelPath sampleCfg).1)
          = sha1sum idDigest sampleFS ((wslConfigGetKernelPath sampleCfg).1)) :=
  sync_noOpIdentical_frame idDigest sampleArgsNoop sampleCfg sampleFS
    (Or.inr (by decide)) (by decide)

/-- Claim C2: when the digest of the freshly downloaded bytes differs from
the local digest (the sentinel when no local image is configured) and the
rename stays on one filesystem, the destination path — the download
directory joined with the image name, suffixed with the release tag
exactly when the tag-image flag is set — holds the downloaded bytes after
the run and fingerprints to their digest, whatever the install flag and
the config save outcome. -/
theorem sync_adopt_destination [DecidableEq α] (digest : List Nat → α) (a : SyncArgs)
    (cfg0 : WslCfg) (fs0 : FS)
    (hReach : (wslConfigGetKernelPath cfg0).1 = ""
      ∨ (sha1sum digest fs0 (wslConfigGetKernelPath cfg0).1).2 = none)
    (hNe : digest a.remoteBytes ≠ localSHAOf digest cfg0 fs0)
    (hFS : a.sameFilesystem = true) :
    (syncRun digest a cfg0 fs0).fs (destinationPath a) = FileState.file a.remoteBytes
    ∧ sha1sum digest (syncRun digest a cfg0 fs0).fs (destinationPath a)
        = (digest a.remoteBytes, none)
    ∧ (a.tagImage = true → destinationPath a
        = pathClean (pathJoin a.downloads a.imageName ++ "." ++ a.remoteTag))
    ∧ (a.tagImage = false → destinationPath a
        = pathClean (pathJoin a.downloads a.imageName)) := by
  rw [syncRun_adopt_fs digest a cfg0 fs0 hReach hNe hFS]
  refine ⟨?_, ?_, ?_, ?_⟩
  · simp [fsUpdate]
  · exact sha1sum_write_self digest _ (destinationPath a) a.remoteBytes
  · intro ht
    simp [destinationPath, ht]
  · intro ht
    simp [destinationPath, ht]

/-- Claim C2, witness: an adopting run against the sample store, with the
tag-image flag set. -/
theorem sync_adopt_destination_witness :
    (syncRun idDigest sampleArgsAdopt sampleCfg sampleFS).fs (destinationPath sampleArgsAdopt)
        = FileState.file sampleArgsAdopt.remoteBytes
    ∧ sha1sum idDigest (syncRun idDigest sampleArgsAdopt sampleCfg sampleFS).fs
          (destinationPath sampleArgsAdopt)
        = (idDigest sampleArgsAdopt.remoteBytes, none)
    ∧ (sampleArgsAdopt.tagImage = true → destinationPath sampleArgsAdopt
        = pathClean (pathJoin sampleArgsAdopt.downloads sampleArgsAdopt.imageName
            ++ "." ++ sampleArgsAdopt.remoteTag))
    ∧ (sampleArgsAdopt.tagImage = false → destinationPath sampleArgsAdopt
        = pathClean (pathJoin sampleArgsAdopt.downloads sampleArgsAdopt.imageName)) :=
  sync_adopt_destination idDigest sampleArgsAdopt sampleCfg sampleFS
    (Or.inr (by decide)) (by decide) (by decide)

/-- Claim C8: in an adopting run with auto-install enabled whose config
save fails, the failure is reported as the terminal outcome and the
already-adopted image at the destination stays in place — the rename is
not undone. -/
theorem adopted_image_survives_configPersistFailure [DecidableEq α]
    (digest : List Nat → α) (a : SyncArgs) (cfg0 : WslCfg) (fs0 : FS)
    (hReach : (wslConfigGetKernelPath cfg0).1 = ""
      ∨ (sha1sum digest fs0 (wslConfigGetKernelPath cfg0).1).2 = none)
    (hNe : digest a.remoteBytes ≠ localSHAOf digest cfg0 fs0)
    (hFS : a.sameFilesystem = true)
    (hAI : a.autoInstall = true) (hSave : a.saveOK = false) :
    (syncRun digest a cfg0 fs0).report = SyncReport.configPersistFailed
    ∧ (syncRun digest a cfg0 fs0).fs (destinationPath a) = FileState.file a.remoteBytes := by
  refine ⟨syncRun_adopt_report_persistFail digest a cfg0 fs0 hReach hNe hFS hAI hSave, ?_⟩
  rw [syncRun_adopt_fs digest a cfg0 fs0 hReach hNe hFS]
  simp [fsUpdate]

/-- Claim C8, witness: an adopting run with auto-install on and a failing
config save against the sample store. -/
theorem adopted_image_survives_configPersistFailure_witness :
    (syncRun idDigest sampleArgsPersist sampleCfg sampleFS).report
        = SyncReport.configPersistFailed
    ∧ (syncRun idDigest sampleArgsPersist sampleCfg sampleFS).fs
          (destinationPath sampleArgsPersist)
        = FileState.file sampleArgsPersist.remoteBytes :=
  adopted_image_survives_configPersistFailure idDigest sampleArgsPersist sampleCfg sampleFS
    (Or.inr (by decide)) (by decide) (by decide) (by decide) (by decide)

/-- Claim C10: when the install option is disabled the config store is
never written or created by the run, whichever way the digest comparison
decides and whatever else happens. -/
theorem noAutoInstall_config_untouched [DecidableEq α] (digest : List Nat → α)
    (a : SyncArgs) (cfg0 : WslCfg) (fs0 : FS) (hAI : a.autoInstall = false) :
    (syncRun digest a cfg0 fs0).cfg = cfg0 := by
  unfold syncRun
  dsimp only
  split
  · rfl
  · split
    · split
      · simp [hAI]
      · rfl
    · rfl

/-- Claim C10, witness: an adopting run without the install flag leaves
the sample store untouched. -/
theorem noAutoInstall_config_untouched_witness :
    (syncRun idDigest sampleArgsAdopt sampleCfg sampleFS).cfg = sampleCfg :=
  noAutoInstall_config_untouched idDigest sampleArgsAdopt sampleCfg sampleFS (by decide)

/-- Claim C6, counterexample: when the temporary path and the destination
are on different filesystems, the run does not fall back to a
write-to-sibling-then-rename — os.Rename simply fails, the run exits with
the rename error and the destination never receives the new content,
contradicting the claimed cross-filesystem fallback. -/
theorem rename_crossFilesystem_no_fallback :
    (syncRun idDigest sampleArgsCross none (fun _ => FileState.absent)).report
        = SyncReport.renameFailed
    ∧ (syncRun idDigest sampleArgsCross none (fun _ => FileState.absent)).fs
          (destinationPath sampleArgsCross)
        = FileState.absent := by
  exact ⟨by decide, by decide⟩

/-- Claim C6, amended: provided the temporary path differs from the
destination, every filesystem state observable during a run — including
after a crash at any point — holds either the old destination content or
the complete downloaded bytes at the destination, never a partial or
truncated file; the final state is one of the observable states; and when
the rename cannot be atomic (temporary and destination on different
filesystems) there is no fallback: the run fails and the destination
keeps its old content. -/
theorem adopt_trace_old_or_new [DecidableEq α] (digest : List Nat → α) (a : SyncArgs)
    (cfg0 : WslCfg) (fs0 : FS) (hne : destinationPath a ≠ tmpImagePath a) :
    (∀ s ∈ syncTrace digest a cfg0 fs0,
        s (destinationPath a) = fs0 (destinationPath a)
        ∨ s (destinationPath a) = FileState.file a.remoteBytes)
    ∧ (syncRun digest a cfg0 fs0).fs ∈ syncTrace digest a cfg0 fs0
    ∧ (a.sameFilesystem = false →
        (syncRun digest a cfg0 fs0).fs (destinationPath a) = fs0 (destinationPath a)) := by
  unfold syncRun syncTrace
  dsimp only
  split
  · refine ⟨?_, ?_, ?_⟩
    · intro s hs
      simp only [List.mem_singleton] at hs
      subst hs
      exact Or.inl rfl
    · simp
    · intro _
      rfl
  · split
    · split
      · refine ⟨?_, ?_, ?_⟩
        · intro s hs
          simp only [List.mem_cons, List.not_mem_nil, or_false] at hs
          rcases hs with rfl | rfl | rfl
          · exact Or.inl rfl
          · exact Or.inl (fsUpdate_ne _ _ _ _ hne)
          · exact Or.inr (by simp [fsUpdate])
        · split
          · split <;> simp
          · simp
        · intro hfalse
          rename_i hsf
          rw [hsf] at hfalse
          cases hfalse
      · refine ⟨?_, ?_, ?_⟩
        · intro s hs
          simp only [List.mem_cons, List.not_mem_nil, or_false] at hs
          rcases hs with rfl | rfl
          · exact Or.inl rfl
          · exact Or.inl (fsUpdate_ne _ _ _ _ hne)
        · simp
        · intro _
          exact fsUpdate_ne _ _ _ _ hne
    · refine ⟨?_, ?_, ?_⟩
      · intro s hs
        simp only [List.mem_cons, List.not_mem_nil, or_false] at hs
        rcases hs with rfl | rfl
        · exact Or.inl rfl
        · exact Or.inl (fsUpdate_ne _ _ _ _ hne)
      · simp
      · intro _
        exact fsUpdate_ne _ _ _ _ hne

/-- Claim C6, witness: the amended statement at an adopting sample run
whose destination differs from the temporary path. -/
theorem adopt_trace_old_or_new_witness :
    (∀ s ∈ syncTrace idDigest sampleArgsAdopt sampleCfg sampleFS,
        s (destinationPath sampleArgsAdopt) = sampleFS (destinationPath sampleArgsAdopt)
        ∨ s (destinationPath sampleArgsAdopt) = FileState.file sampleArgsAdopt.remoteBytes)
    ∧ (syncRun idDigest sampleArgsAdopt sampleCfg sampleFS).fs
        ∈ syncTrace idDigest sampleArgsAdopt sampleCfg sampleFS
    ∧ (sampleArgsAdopt.sameFilesystem = false →
        (syncRun idDigest sampleArgsAdopt sampleCfg sampleFS).fs
            (destinationPath sampleArgsAdopt)
          = sampleFS (destinationPath sampleArgsAdopt)) :=
  adopt_trace_old_or_new idDigest sampleArgsAdopt sampleCfg sampleFS (by decide)

end UpdateWsl2Kernel
